import Mathlib

/-!
Shallow embedding of `scripts/generate_ground_glb.py` (Harmony repository).

The script builds a textured ground-plane GLB: four vertices of a
400 m × 400 m square in the y = 0 plane, four upward normals, four tiled UV
coordinates, six indices forming two triangles, plus a re-encoded PNG texture,
and serializes everything into one binary buffer described by five buffer
views and four accessors.

All float32 values produced by the script (±200.0, 0.0, 1.0, 10.0) are exactly
representable, so the numeric model uses `ℚ`; the byte-level model implements
the IEEE-754 binary32 little-endian encoding for exactly representable
rationals, matching numpy `tobytes()` on `float32` arrays.
-/

namespace GroundGlb

/-- `PLANE_SIZE_METERS = 400.0` (src line 35). -/
def PLANE_SIZE_METERS : ℚ := 400

/-- `TEXTURE_TILE_COUNT = 10.0` (src line 36). -/
def TEXTURE_TILE_COUNT : ℚ := 10

/-- `half_extent = PLANE_SIZE_METERS / 2.0` (src line 49). -/
def half_extent : ℚ := PLANE_SIZE_METERS / 2

/-- A 3-component vector of exact reals, modelling a float32 triple. -/
structure Vec3 where
  x : ℚ
  y : ℚ
  z : ℚ
deriving DecidableEq

instance : Inhabited Vec3 := ⟨⟨0, 0, 0⟩⟩

/-- A 2-component vector (UV coordinate). -/
structure Vec2 where
  u : ℚ
  v : ℚ
deriving DecidableEq

instance : Inhabited Vec2 := ⟨⟨0, 0⟩⟩

/-- The vertex array of the plane (src lines 50–55). -/
def vertices : List Vec3 :=
  [ ⟨-half_extent, 0, -half_extent⟩
  , ⟨half_extent, 0, -half_extent⟩
  , ⟨half_extent, 0, half_extent⟩
  , ⟨-half_extent, 0, half_extent⟩ ]

/-- The normal array, all pointing up (src lines 58–63). -/
def normals : List Vec3 :=
  [ ⟨0, 1, 0⟩, ⟨0, 1, 0⟩, ⟨0, 1, 0⟩, ⟨0, 1, 0⟩ ]

/-- The UV array with tiling (src lines 67–72). -/
def uvs : List Vec2 :=
  [ ⟨0, TEXTURE_TILE_COUNT⟩
  , ⟨TEXTURE_TILE_COUNT, TEXTURE_TILE_COUNT⟩
  , ⟨TEXTURE_TILE_COUNT, 0⟩
  , ⟨0, 0⟩ ]

/-- The index array, two triangles (src line 75). -/
def indices : List Nat := [0, 1, 2, 0, 2, 3]

/-! ### Triangle geometry helpers -/

/-- Componentwise vector subtraction. -/
def vsub (a b : Vec3) : Vec3 := ⟨a.x - b.x, a.y - b.y, a.z - b.z⟩

/-- The 3D cross product. -/
def cross (a b : Vec3) : Vec3 :=
  ⟨a.y * b.z - a.z * b.y, a.z * b.x - a.x * b.z, a.x * b.y - a.y * b.x⟩

/-- The `k`-th triangle of the mesh: the vertices selected by indices
`3k, 3k+1, 3k+2` of the index array. -/
def triangle (k : Nat) : Vec3 × Vec3 × Vec3 :=
  ( vertices.getD (indices.getD (3 * k) 0) default
  , vertices.getD (indices.getD (3 * k + 1) 0) default
  , vertices.getD (indices.getD (3 * k + 2) 0) default )

/-- The (unnormalized) geometric normal of triangle `k` under the right-hand
rule: `(b - a) × (c - a)`.  A triangle is counter-clockwise when viewed from
+Y exactly when this normal has positive y-component. -/
def windingNormal (k : Nat) : Vec3 :=
  match triangle k with
  | (a, b, c) => cross (vsub b a) (vsub c a)

/-- The UV triple of the `k`-th triangle. -/
def uvTriangle (k : Nat) : Vec2 × Vec2 × Vec2 :=
  ( uvs.getD (indices.getD (3 * k) 0) default
  , uvs.getD (indices.getD (3 * k + 1) 0) default
  , uvs.getD (indices.getD (3 * k + 2) 0) default )

/-- Twice the signed area of the `k`-th triangle in raw (u, v) coordinates:
`(b - a) × (c - a)` as a 2D cross product. -/
def uvSignedDoubleArea (k : Nat) : ℚ :=
  match uvTriangle k with
  | (a, b, c) => (b.u - a.u) * (c.v - a.v) - (b.v - a.v) * (c.u - a.u)

/-! ### IEEE-754 binary32 little-endian encoding

Models `np.float32(...).tobytes()` for values that are exactly representable
as normal binary32 floats (every value the script serializes is). -/

/-- `2^e` for an integer exponent. -/
def pow2 (e : Int) : ℚ :=
  if 0 ≤ e then ((2 : ℚ) ^ e.toNat) else 1 / ((2 : ℚ) ^ (-e).toNat)

/-- The bit pattern of a rational as a binary32 float, defined for 0 and for
exactly representable normal values (falls back to 0 otherwise; every value
used by the script is exact). -/
def f32bits (q : ℚ) : Nat :=
  if q = 0 then 0
  else
    let a := |q|
    let e : Int := (a.num.natAbs.log2 : Int) - (a.den.log2 : Int)
    let m : ℚ := a * pow2 (23 - e)
    if m.den = 1 ∧ (2 : Int) ^ 23 ≤ m.num ∧ m.num < 2 ^ 24 ∧ -126 ≤ e ∧ e ≤ 127 then
      (if q < 0 then 2 ^ 31 else 0) + (e + 127).toNat * 2 ^ 23 + (m.num.toNat - 2 ^ 23)
    else 0

/-- Little-endian byte serialization of `n` into `k` bytes. -/
def leBytes (n k : Nat) : List Nat :=
  (List.range k).map (fun i => n / 256 ^ i % 256)

/-- A float32 little-endian, as four bytes (numpy default byte order). -/
def f32le (q : ℚ) : List Nat := leBytes (f32bits q) 4

/-- A uint16 little-endian, as two bytes. -/
def u16le (n : Nat) : List Nat := leBytes (n % 65536) 2

/-- Bytes of a `Vec3` as three float32 values. -/
def vec3bytes (v : Vec3) : List Nat := f32le v.x ++ f32le v.y ++ f32le v.z

/-- Bytes of a `Vec2` as two float32 values. -/
def vec2bytes (v : Vec2) : List Nat := f32le v.u ++ f32le v.v

/-- `vertices.tobytes()` (src line 85). -/
def vertices_bytes : List Nat := (vertices.map vec3bytes).flatten

/-- `normals.tobytes()` (src line 86). -/
def normals_bytes : List Nat := (normals.map vec3bytes).flatten

/-- `uvs.tobytes()` (src line 87). -/
def uvs_bytes : List Nat := (uvs.map vec2bytes).flatten

/-- `indices.tobytes()` (src line 88). -/
def indices_bytes : List Nat := (indices.map u16le).flatten

/-- `binary_data = vertices_bytes + normals_bytes + uvs_bytes + indices_bytes
+ texture_bytes` (src line 91), as a function of the texture bytes. -/
def binary_data (tex : List Nat) : List Nat :=
  vertices_bytes ++ normals_bytes ++ uvs_bytes ++ indices_bytes ++ tex

/-- The geometry-only prefix of the binary buffer. -/
def geometry_bytes : List Nat :=
  vertices_bytes ++ normals_bytes ++ uvs_bytes ++ indices_bytes

/-! ### Buffer views, accessors, buffer (src lines 94–154) -/

/-- `vertices_offset = 0` (src line 94). -/
def vertices_offset : Nat := 0

/-- `normals_offset = len(vertices_bytes)` (src line 95). -/
def normals_offset : Nat := vertices_bytes.length

/-- `uvs_offset = normals_offset + len(normals_bytes)` (src line 96). -/
def uvs_offset : Nat := normals_offset + normals_bytes.length

/-- `indices_offset = uvs_offset + len(uvs_bytes)` (src line 97). -/
def indices_offset : Nat := uvs_offset + uvs_bytes.length

/-- `texture_offset = indices_offset + len(indices_bytes)` (src line 98). -/
def texture_offset : Nat := indices_offset + indices_bytes.length

/-- A glTF buffer view (the fields the script sets). -/
structure BufferView where
  buffer : Nat
  byteOffset : Nat
  byteLength : Nat
  target : Option Nat
deriving DecidableEq

instance : Inhabited BufferView := ⟨⟨0, 0, 0, none⟩⟩

/-- The five buffer views (src lines 110–116), as a function of the embedded
texture bytes. -/
def bufferViews (tex : List Nat) : List BufferView :=
  [ ⟨0, vertices_offset, vertices_bytes.length, some 34962⟩
  , ⟨0, normals_offset, normals_bytes.length, some 34962⟩
  , ⟨0, uvs_offset, uvs_bytes.length, some 34962⟩
  , ⟨0, indices_offset, indices_bytes.length, some 34963⟩
  , ⟨0, texture_offset, tex.length, none⟩ ]

/-- A glTF accessor (the fields the script sets; min/max omitted except where
a claim needs them). -/
structure Accessor where
  bufferView : Nat
  byteOffset : Nat
  componentType : Nat
  count : Nat
  type : String
deriving DecidableEq

instance : Inhabited Accessor := ⟨⟨0, 0, 0, 0, ""⟩⟩

/-- The four accessors (src lines 119–154): positions, normals, UVs, indices.
Counts are the Python `len(...)` of the corresponding arrays, exactly as the
script passes them. -/
def accessors : List Accessor :=
  [ ⟨0, 0, 5126, vertices.length, "VEC3"⟩
  , ⟨1, 0, 5126, normals.length, "VEC3"⟩
  , ⟨2, 0, 5126, uvs.length, "VEC2"⟩
  , ⟨3, 0, 5123, indices.length, "SCALAR"⟩ ]

/-- `Buffer(byteLength=len(binary_data))` (src line 107). -/
def bufferByteLength (tex : List Nat) : Nat := (binary_data tex).length

/-- The five byte segments of the binary buffer, in serialization order. -/
def segments (tex : List Nat) : List (List Nat) :=
  [vertices_bytes, normals_bytes, uvs_bytes, indices_bytes, tex]

/-! ### The texture pipeline (src lines 78–82)

The script does `Image.open(TEXTURE_PATH).convert("RGBA")` and then
`image.save(img_buffer, format="PNG")`; the embedded bytes are the PNG
re-encoding of the decoded image, not the bytes of the input file.  The decoded
RGBA image is modelled as a pixel grid; the PNG writer is modelled by the one
property of its output format the claims need — a PNG stream begins with the
fixed 8-byte PNG signature — with the remainder a straightforward
serialization of dimensions and pixel data. -/

/-- A decoded RGBA image: dimensions and the flat RGBA channel list, as
produced by `Image.open(...).convert("RGBA")`. -/
structure PILImage where
  width : Nat
  height : Nat
  data : List Nat
deriving DecidableEq

/-- The fixed 8-byte signature that begins every PNG stream. -/
def pngSignature : List Nat := [137, 80, 78, 71, 13, 10, 26, 10]

/-- Model of `image.save(img_buffer, format="PNG")` (src line 81): the output
begins with the PNG signature (forced by the PNG format); dimensions and the
RGBA pixel grid follow.  Only the signature and pixel-level invertibility are
used by the claims, so the chunk structure is simplified to a direct
serialization. -/
def pngSaveModel (img : PILImage) : List Nat :=
  pngSignature ++ leBytes img.width 4 ++ leBytes img.height 4 ++ img.data

/-- The value of a little-endian byte list. -/
def leValue (l : List Nat) : Nat :=
  l.foldr (fun b acc => acc * 256 + b) 0

/-- Inverse of `pngSaveModel`: recover the RGBA image from the modelled PNG
stream (decoding the embedded image of the produced container). -/
def pngDecodeModel (bytes : List Nat) : Option PILImage :=
  if bytes.take 8 = pngSignature then
    some ⟨leValue ((bytes.drop 8).take 4), leValue ((bytes.drop 12).take 4), bytes.drop 16⟩
  else none

/-- Modelled from the spec: `Image.open` accepts any standard raster image
format (spec §6: "a standard raster image format"); this table records one
concrete decode instance used by the claims: the canonical 42-byte 1×1 GIF
(a valid texture file), which `convert("RGBA")` turns into a single
transparent-black RGBA pixel. -/
def gif1x1Bytes : List Nat :=
  [71, 73, 70, 56, 57, 97, 1, 0, 1, 0, 128, 0, 0,
   0, 0, 0, 255, 255, 255,
   33, 249, 4, 1, 0, 0, 0, 0,
   44, 0, 0, 0, 0, 1, 0, 1, 0, 0,
   2, 1, 68, 0, 59]

/-- The decoded RGBA image of `gif1x1Bytes`: one transparent black pixel. -/
def gif1x1Image : PILImage := ⟨1, 1, [0, 0, 0, 0]⟩

/-- Modelled from the spec: the decode relation of the image library, recorded
on the concrete inputs the claims evaluate (input file bytes paired with the
RGBA image `Image.open(...).convert("RGBA")` yields for them). -/
def decodeTable : List (List Nat × PILImage) :=
  [(gif1x1Bytes, gif1x1Image)]

/-- `texture_bytes` (src lines 78–82) as a function of the decoded RGBA
image: the PNG re-encode of the decoded image. -/
def texture_bytes_of (img : PILImage) : List Nat := pngSaveModel img

/-- `Image.open(TEXTURE_PATH).convert("RGBA")` (src line 78) as a function of
the input file bytes, via the recorded decode table: `some` image when PIL
can decode the bytes, `none` when it cannot (`Image.open` raises
`UnidentifiedImageError` there). -/
def pilDecode (fileBytes : List Nat) : Option PILImage :=
  (decodeTable.find? (fun e => e.1 == fileBytes)).map (fun e => e.2)

/-- The re-encoded texture bytes as a function of the input file bytes
(src lines 78–82): decode, then re-encode as PNG; `none` when the decode
raises. -/
def pilReencodePNG (fileBytes : List Nat) : Option (List Nat) :=
  (pilDecode fileBytes).map texture_bytes_of

/-! ### Filesystem model and entry point (src lines 39–42, 200–214)

The filesystem is a map from paths to byte contents plus a set of
directories; the effects of the script are explicit state passing.  Errors
short-circuit, so an error result carries the state at the point of the
raise — in the source the `FileNotFoundError` on src line 41 is raised
before the `mkdir` on src line 42, and `ensure_paths()` runs before
`create_ground_glb()` (src lines 209–210). -/

/-- `TEXTURE_PATH` (src line 32). -/
def TEXTURE_PATH : String := "src/preset/images/textures/grass.png"

/-- `OUTPUT_PATH` (src line 33). -/
def OUTPUT_PATH : String := "src/preset/models/ground.glb"

/-- `OUTPUT_PATH.parent` (src line 42). -/
def OUTPUT_PARENT : String := "src/preset/models"

/-- A filesystem: files with contents, and existing directories.
`mkdir(parents=True)` is modelled at the granularity the claims need: the
output parent directory entry stands for the whole missing chain. -/
structure FS where
  files : List (String × List Nat)
  dirs : List String
deriving DecidableEq

/-- Read the contents of a file, if the path exists. -/
def readFile (fs : FS) (p : String) : Option (List Nat) :=
  (fs.files.find? (fun e => e.1 == p)).map (fun e => e.2)

/-- `Path.is_file()`. -/
def isFile (fs : FS) (p : String) : Bool := (readFile fs p).isSome

/-- `path.mkdir(parents=True, exist_ok=True)` (src line 42). -/
def mkdirParents (fs : FS) (p : String) : FS :=
  { fs with dirs := if p ∈ fs.dirs then fs.dirs else p :: fs.dirs }

/-- Write (or overwrite) a file. -/
def writeFile (fs : FS) (p : String) (bytes : List Nat) : FS :=
  { fs with files := (p, bytes) :: fs.files }

/-- The error taxonomy of the script as the claims need it: the missing-input
`FileNotFoundError`, read failures, and the `UnidentifiedImageError` raised
by `Image.open` on undecodable input; all propagate uncaught. -/
inductive GlbError where
  | fileNotFound
  | ioError
  | decodeError
deriving DecidableEq

/-- `ensure_paths()` (src lines 39–42): the existence check and the raise
come first; the `mkdir` runs only when the texture exists. -/
def ensure_paths (fs : FS) : Except GlbError FS :=
  if isFile fs TEXTURE_PATH then .ok (mkdirParents fs OUTPUT_PARENT)
  else .error .fileNotFound

/-- `create_ground_glb()` (src lines 45–204): read the texture, decode and
re-encode it (a decode failure raises `UnidentifiedImageError` at src line 78
and propagates, writing nothing), build the binary blob, write the GLB to
`OUTPUT_PATH`.  The written content is modelled as the binary buffer (the GLB
container framing adds headers around it and is not needed by any claim). -/
def create_ground_glb (fs : FS) : Except GlbError FS :=
  match readFile fs TEXTURE_PATH with
  | none => .error .ioError
  | some texFileBytes =>
      match pilReencodePNG texFileBytes with
      | none => .error .decodeError
      | some texBytes => .ok (writeFile fs OUTPUT_PATH (binary_data texBytes))

/-- The `__main__` block (src lines 207–214): `ensure_paths()` then
`create_ground_glb()`; an exception propagates and leaves the filesystem as
it was at the raise. -/
def main (fs : FS) : FS × Except GlbError Unit :=
  match ensure_paths fs with
  | .error e => (fs, .error e)
  | .ok fs1 =>
      match create_ground_glb fs1 with
      | .error e => (fs1, .error e)
      | .ok fs2 => (fs2, .ok ())

/-! ## Helper lemmas -/

/-- The length of a little-endian serialization. -/
theorem leBytes_length (n k : Nat) : (leBytes n k).length = k := by
  simp [leBytes]

/-- Reading back a 4-byte little-endian serialization of a value below
`2^32` recovers the value. -/
theorem leValue_leBytes4 (n : Nat) (h : n < 2 ^ 32) : leValue (leBytes n 4) = n := by
  have h4 : leBytes n 4 = [n % 256, n / 256 % 256, n / 256 ^ 2 % 256, n / 256 ^ 3 % 256] := by
    simp [leBytes, List.range_succ]
  rw [h4]
  simp only [leValue, List.foldr]
  norm_num
  omega

/-- The binary buffer is the geometry prefix followed by the texture bytes. -/
theorem binary_data_eq (tex : List Nat) : binary_data tex = geometry_bytes ++ tex := by
  simp [binary_data, geometry_bytes, List.append_assoc]

/-- The cumulative texture offset equals the length of the geometry prefix. -/
theorem texture_offset_eq : texture_offset = geometry_bytes.length := by
  simp [texture_offset, indices_offset, uvs_offset, normals_offset, vertices_offset,
    geometry_bytes, List.length_append]
  omega

/-! ## Claims -/

/-- Claim C1 — the claim asserts that each of the two triangles given by the
index sequence `[0, 1, 2, 0, 2, 3]` over the four vertex positions is
counter-clockwise when viewed from +Y, i.e. that the right-hand-rule normal
`(b - a) × (c - a)` of each triangle has positive y-component, consistent
with the `(0, 1, 0)` vertex normals.  The code violates this: both triangles
have winding normal `(0, -160000, 0)`, pointing along -Y — clockwise when
viewed from above, front face downward — contradicting the source comment on
src line 74 ("counter-clockwise winding") and the upward vertex normals.
This theorem evaluates the code at the failing input (the generated mesh
itself). -/
theorem c1_triangles_clockwise_from_above :
    (windingNormal 0).y = -160000 ∧ (windingNormal 1).y = -160000 ∧
    (windingNormal 0).y < 0 ∧ (windingNormal 1).y < 0 := by
  norm_num [windingNormal, triangle, cross, vsub, vertices, indices, half_extent,
    PLANE_SIZE_METERS, List.getD]

/-- Claim C2 — the four UV coordinates have both components in `{0, T}` for
the configured tile count `T = 10`, both axes attain both extremes (the UVs
span `[0, T]`), and the corner assignment is consistent with the vertex
positions under the chosen winding: the map from position to UV is the
axis-aligned affine map `u = T (x + S/2) / S`, `v = T (S/2 - z) / S`
(u depends only on x and increases with it, v only on z — no rotation), and
for each of the two triangles the UV-space signed double area is negative
while the triangle is geometrically non-degenerate.  With the glTF image
convention (texture origin at the top-left, v pointing down) a texture on a
triangle is displayed unmirrored exactly when its raw (u, v) signed area and
the front-face orientation of the triangle have opposite signs; the
front-face screen orientation of any non-degenerate triangle is positive by
construction, so negative UV area means the texture is neither mirrored nor
rotated on the front face defined by the chosen winding. -/
theorem c2_uv_tiling_consistent :
    (∀ w ∈ uvs, (w.u = 0 ∨ w.u = TEXTURE_TILE_COUNT) ∧ (w.v = 0 ∨ w.v = TEXTURE_TILE_COUNT)) ∧
    (∃ w ∈ uvs, w.u = 0) ∧ (∃ w ∈ uvs, w.u = TEXTURE_TILE_COUNT) ∧
    (∃ w ∈ uvs, w.v = 0) ∧ (∃ w ∈ uvs, w.v = TEXTURE_TILE_COUNT) ∧
    (∀ p ∈ vertices.zip uvs,
      p.2.u = TEXTURE_TILE_COUNT * (p.1.x + half_extent) / PLANE_SIZE_METERS ∧
      p.2.v = TEXTURE_TILE_COUNT * (half_extent - p.1.z) / PLANE_SIZE_METERS) ∧
    (∀ k ∈ [0, 1], uvSignedDoubleArea k < 0 ∧ (windingNormal k).y ≠ 0) := by
  norm_num [uvs, vertices, TEXTURE_TILE_COUNT, half_extent, PLANE_SIZE_METERS,
    uvSignedDoubleArea, uvTriangle, windingNormal, triangle, cross, vsub, indices,
    List.getD, List.zip]

/-- Claim C3 counterexample — the claim asserts the embedded image bytes are
exactly the bytes of the input texture file.  The script instead re-encodes:
`Image.open(...).convert("RGBA")` then `save(..., format="PNG")`
(src lines 78–82).  For the concrete input `gif1x1Bytes` (a valid 1×1 GIF
texture file, decoding to the RGBA image `gif1x1Image`), the embedded bytes
are a PNG stream starting with byte 137, while the input file starts with
byte 71 ("G"), so the embedded bytes are not the input bytes. -/
theorem c3_counterexample_not_verbatim :
    (gif1x1Bytes, gif1x1Image) ∈ decodeTable ∧
    texture_bytes_of gif1x1Image ≠ gif1x1Bytes ∧
    (texture_bytes_of gif1x1Image).headI = 137 ∧ gif1x1Bytes.headI = 71 := by
  decide

/-- Claim C3 (amended) — the embedded image bytes are a lossless PNG
re-encoding of the decoded input image, not the verbatim input file bytes:
for every decoded RGBA image the embedded bytes begin with the PNG signature
(they form a PNG stream), and decoding the embedded stream recovers exactly
the RGBA pixel grid that was encoded. -/
theorem c3_embedded_is_lossless_png_reencode (img : PILImage)
    (hw : img.width < 2 ^ 32) (hh : img.height < 2 ^ 32) :
    (texture_bytes_of img).take 8 = pngSignature ∧
    pngDecodeModel (texture_bytes_of img) = some img := by
  obtain ⟨w, h, d⟩ := img
  simp only at hw hh
  have hsig : (pngSignature : List Nat).length = 8 := rfl
  have hb : texture_bytes_of ⟨w, h, d⟩ =
      pngSignature ++ (leBytes w 4 ++ (leBytes h 4 ++ d)) := by
    simp [texture_bytes_of, pngSaveModel, List.append_assoc]
  have htake : (texture_bytes_of ⟨w, h, d⟩).take 8 = pngSignature := by
    rw [hb]; exact List.take_left' hsig
  refine ⟨htake, ?_⟩
  have hd8 : (texture_bytes_of ⟨w, h, d⟩).drop 8 = leBytes w 4 ++ (leBytes h 4 ++ d) := by
    rw [hb]; exact List.drop_left' hsig
  have hd12 : (texture_bytes_of ⟨w, h, d⟩).drop 12 = leBytes h 4 ++ d := by
    rw [hb, ← List.append_assoc]
    exact List.drop_left' (by simp [leBytes_length, hsig])
  have hd16 : (texture_bytes_of ⟨w, h, d⟩).drop 16 = d := by
    rw [hb, ← List.append_assoc, ← List.append_assoc]
    exact List.drop_left' (by simp [leBytes_length, hsig])
  simp only [pngDecodeModel, htake, if_true, hd8, hd12, hd16]
  rw [List.take_left' (leBytes_length w 4), List.take_left' (leBytes_length h 4),
    leValue_leBytes4 w hw, leValue_leBytes4 h hh]

/-- Witness for `c3_embedded_is_lossless_png_reencode` at the concrete 1×1
RGBA image of the decode table. -/
theorem c3_embedded_is_lossless_png_reencode_witness :
    gif1x1Image.width < 2 ^ 32 ∧ gif1x1Image.height < 2 ^ 32 ∧
    ((texture_bytes_of gif1x1Image).take 8 = pngSignature ∧
     pngDecodeModel (texture_bytes_of gif1x1Image) = some gif1x1Image) :=
  ⟨by norm_num [gif1x1Image], by norm_num [gif1x1Image],
    c3_embedded_is_lossless_png_reencode gif1x1Image
      (by norm_num [gif1x1Image]) (by norm_num [gif1x1Image])⟩

/-- Claim C4 — when the texture file does not exist, the run fails with the
FileNotFound error raised by `ensure_paths` (src line 41) before any work:
the returned filesystem is exactly the input filesystem, so no output file
was written and no output parent directory was created (the existence check
precedes the `mkdir` on src line 42 and all construction). -/
theorem c4_missing_texture_fails_before_work (fs : FS)
    (h : isFile fs TEXTURE_PATH = false) :
    main fs = (fs, Except.error GlbError.fileNotFound) := by
  simp [main, ensure_paths, h]

/-- Witness for `c4_missing_texture_fails_before_work` on the empty
filesystem. -/
theorem c4_missing_texture_fails_before_work_witness :
    isFile ⟨[], []⟩ TEXTURE_PATH = false ∧
    main ⟨[], []⟩ = (⟨[], []⟩, Except.error GlbError.fileNotFound) :=
  ⟨rfl, c4_missing_texture_fails_before_work ⟨[], []⟩ rfl⟩

/-- Claim C5 — the four vertex positions are exactly the corners
`(±S/2, 0, ±S/2)` of a square of side `S = PLANE_SIZE_METERS = 400` centered
at the origin, all with y-coordinate zero. -/
theorem c5_vertices_square :
    PLANE_SIZE_METERS = 400 ∧
    vertices.length = 4 ∧
    (∀ v ∈ vertices, v.y = 0) ∧
    (∀ v : Vec3, v ∈ vertices ↔
      (v = ⟨-(PLANE_SIZE_METERS / 2), 0, -(PLANE_SIZE_METERS / 2)⟩ ∨
       v = ⟨PLANE_SIZE_METERS / 2, 0, -(PLANE_SIZE_METERS / 2)⟩ ∨
       v = ⟨PLANE_SIZE_METERS / 2, 0, PLANE_SIZE_METERS / 2⟩ ∨
       v = ⟨-(PLANE_SIZE_METERS / 2), 0, PLANE_SIZE_METERS / 2⟩)) := by
  norm_num [vertices, half_extent, PLANE_SIZE_METERS]

/-- Claim C6 — every one of the four generated per-vertex normals equals
exactly `(0, 1, 0)`. -/
theorem c6_normals_all_up : normals.length = 4 ∧ ∀ n ∈ normals, n = ⟨0, 1, 0⟩ := by
  norm_num [normals]

/-- Claim C7 — vertex, normal and UV counts are all equal (all 4); every
index value is a valid vertex position index (below the vertex count); and
the accessor counts declared in the container (4 for positions, normals and
UVs, 6 for indices) equal the element counts of the corresponding arrays. -/
theorem c7_mesh_invariants :
    vertices.length = normals.length ∧ normals.length = uvs.length ∧ vertices.length = 4 ∧
    (∀ i ∈ indices, i < vertices.length) ∧
    (accessors.getD 0 default).count = vertices.length ∧
    (accessors.getD 1 default).count = normals.length ∧
    (accessors.getD 2 default).count = uvs.length ∧
    (accessors.getD 3 default).count = indices.length ∧
    (accessors.getD 0 default).count = 4 ∧ (accessors.getD 1 default).count = 4 ∧
    (accessors.getD 2 default).count = 4 ∧ (accessors.getD 3 default).count = 6 := by
  norm_num [accessors, vertices, normals, uvs, indices, List.getD]

/-- Claim C8 — the geometry prefix of the binary buffer (vertex positions,
normals, UVs and indices serialized to bytes) is a function of the fixed
constants alone: it is the constant list `geometry_bytes` whatever texture
bytes are embedded, so two runs with unchanged inputs produce byte-for-byte
identical geometry buffer bytes. -/
theorem c8_geometry_bytes_deterministic (t1 t2 : List Nat) :
    (binary_data t1).take texture_offset = geometry_bytes ∧
    (binary_data t1).take texture_offset = (binary_data t2).take texture_offset := by
  have key : ∀ t : List Nat, (binary_data t).take texture_offset = geometry_bytes := by
    intro t
    rw [binary_data_eq, texture_offset_eq]
    exact List.take_left geometry_bytes t
  exact ⟨key t1, (key t1).trans (key t2).symm⟩

/-- Claim C9 — when the texture file exists (with decodable image content, so
the decode step on src line 78 does not raise) and the output parent
directory does not exist, the run creates the parent directory and still
succeeds: the result is `ok`, the parent directory exists afterwards, and the
output file has been written. -/
theorem c9_creates_parent_and_succeeds (fs : FS) (tb : List Nat) (img : PILImage)
    (h : readFile fs TEXTURE_PATH = some tb)
    (hdec : pilDecode tb = some img)
    (hd : OUTPUT_PARENT ∉ fs.dirs) :
    (main fs).2 = Except.ok () ∧
    OUTPUT_PARENT ∈ (main fs).1.dirs ∧
    readFile (main fs).1 OUTPUT_PATH = some (binary_data (texture_bytes_of img)) := by
  have hf : isFile fs TEXTURE_PATH = true := by simp [isFile, h]
  have hr : readFile (mkdirParents fs OUTPUT_PARENT) TEXTURE_PATH = some tb := h
  have hre : pilReencodePNG tb = some (texture_bytes_of img) := by
    simp [pilReencodePNG, hdec]
  have hmain : main fs =
      (writeFile (mkdirParents fs OUTPUT_PARENT) OUTPUT_PATH
        (binary_data (texture_bytes_of img)), Except.ok ()) := by
    simp [main, ensure_paths, hf, create_ground_glb, hr, hre]
  rw [hmain]
  refine ⟨rfl, ?_, ?_⟩
  · simp [writeFile, mkdirParents, hd]
  · simp [readFile, writeFile, List.find?]

/-- Witness for `c9_creates_parent_and_succeeds` on a filesystem holding only
the texture file, with the decodable 1×1 GIF as its content. -/
theorem c9_creates_parent_and_succeeds_witness :
    readFile ⟨[(TEXTURE_PATH, gif1x1Bytes)], []⟩ TEXTURE_PATH = some gif1x1Bytes ∧
    pilDecode gif1x1Bytes = some gif1x1Image ∧
    OUTPUT_PARENT ∉ (FS.mk [(TEXTURE_PATH, gif1x1Bytes)] []).dirs ∧
    ((main ⟨[(TEXTURE_PATH, gif1x1Bytes)], []⟩).2 = Except.ok () ∧
     OUTPUT_PARENT ∈ (main ⟨[(TEXTURE_PATH, gif1x1Bytes)], []⟩).1.dirs ∧
     readFile (main ⟨[(TEXTURE_PATH, gif1x1Bytes)], []⟩).1 OUTPUT_PATH =
       some (binary_data (texture_bytes_of gif1x1Image))) :=
  ⟨by decide, by decide, by decide,
    c9_creates_parent_and_succeeds ⟨[(TEXTURE_PATH, gif1x1Bytes)], []⟩ gif1x1Bytes
      gif1x1Image (by decide) (by decide) (by decide)⟩

/-- Claim C10 — the five buffer views partition the binary blob contiguously
and without overlap in the order vertices, normals, UVs, indices, image
bytes: each byteOffset is the sum of the lengths of all preceding segments,
each byteLength is the length of its segment, the blob is the concatenation
of the five segments, and the declared buffer byteLength is the total length
(equivalently, the sum of all five view byteLengths). -/
theorem c10_bufferviews_partition (tex : List Nat) :
    (bufferViews tex).length = 5 ∧
    ((bufferViews tex).getD 0 default).byteOffset = 0 ∧
    ((bufferViews tex).getD 1 default).byteOffset = vertices_bytes.length ∧
    ((bufferViews tex).getD 2 default).byteOffset =
      vertices_bytes.length + normals_bytes.length ∧
    ((bufferViews tex).getD 3 default).byteOffset =
      vertices_bytes.length + normals_bytes.length + uvs_bytes.length ∧
    ((bufferViews tex).getD 4 default).byteOffset =
      vertices_bytes.length + normals_bytes.length + uvs_bytes.length +
        indices_bytes.length ∧
    ((bufferViews tex).getD 0 default).byteLength = vertices_bytes.length ∧
    ((bufferViews tex).getD 1 default).byteLength = normals_bytes.length ∧
    ((bufferViews tex).getD 2 default).byteLength = uvs_bytes.length ∧
    ((bufferViews tex).getD 3 default).byteLength = indices_bytes.length ∧
    ((bufferViews tex).getD 4 default).byteLength = tex.length ∧
    binary_data tex = (segments tex).flatten ∧
    bufferByteLength tex = (binary_data tex).length ∧
    bufferByteLength tex = ((bufferViews tex).map (fun v => v.byteLength)).sum := by
  refine ⟨rfl, rfl, rfl, rfl, rfl, rfl, rfl, rfl, rfl, rfl, rfl, ?_, rfl, ?_⟩
  · simp [binary_data, segments]
  · simp [bufferByteLength, binary_data, bufferViews, List.length_append]

end GroundGlb
